import Mathlib

/-!
Verification of the `aba-payway` TypeScript SDK (PayWay payment gateway client).

This file shallowly embeds the signing / payload-construction core of the
library: the HMAC-SHA512 transaction signer (Mode A), the RSA-enveloped
merchant-auth payment-link builder (Mode B), the checkout URL resolver, and
the `createABACheckout` wrapper, and proves (or refutes) the specification
claims about them.

Conventions of the embedding:
* JavaScript strings are Lean `String`s; JS `substring`, `startsWith`,
  `includes`, `endsWith`, `Array.join('')` and truthiness are modelled by
  explicit, executable helpers below.
* Byte sequences (Node `Buffer`s, digests, ciphertexts) are `List Nat`
  with each entry intended `< 256`; `Buffer.from` coerces to octets.
* HMAC-SHA512 and Base64 are implemented concretely (FIPS 180-4 / RFC 2104 /
  RFC 4648) so that signature-level statements are about real computations.
* RSA-PKCS#1-v1.5 encryption is an external OpenSSL primitive; it is taken
  as an arbitrary function parameter `rsaEnc : String → List Nat → List Nat`
  (key, plaintext bytes ↦ ciphertext bytes); theorems quantify over it.
* The wall clock is a parameter: a `Clock` value supplies both the
  `yyyyMMddHHmmss` formatted request time and the epoch-seconds value.
-/

/-! ## JS-style string helpers -/

/-- Concatenation of a list of strings with no delimiter: JS `values.join("")`. -/
def joinAll (vs : List String) : String :=
  String.mk (List.flatten (vs.map String.data))

/-- JS `s.substring(0, n)`: the first `n` characters of `s`. -/
def jsTake (s : String) (n : Nat) : String :=
  String.mk (s.data.take n)

/-- Prefix test on character lists. -/
def leadsWith : List Char → List Char → Bool
  | [], _ => true
  | _ :: _, [] => false
  | p :: ps, c :: cs => p = c && leadsWith ps cs

/-- JS `s.startsWith(p)`. -/
def strStartsWith (s p : String) : Bool :=
  leadsWith p.data s.data

/-- Occurrence of `p` as a contiguous run inside `s` (character lists). -/
def occursIn : List Char → List Char → Bool
  | p, [] => p.isEmpty
  | p, c :: cs => leadsWith p (c :: cs) || occursIn p cs

/-- JS `s.includes(p)`. -/
def strContains (s p : String) : Bool :=
  occursIn p.data s.data

/-- JS `s.replace(/\/$/, '')`: strip a single trailing slash when present. -/
def stripTrailingSlash (s : String) : String :=
  match s.data.getLast? with
  | some c => if c = '/' then String.mk s.data.dropLast else s
  | none => s

/-- JS truthiness of an optional string (`undefined`, `null` and `""` are falsy). -/
def jsTruthyOpt : Option String → Bool
  | none => false
  | some s => s ≠ ""

/-- JS `x || ""` on an optional string. -/
def jsOrEmpty (o : Option String) : String := o.getD ""

/-! ## SHA-512 (FIPS 180-4), HMAC (RFC 2104) and Base64 (RFC 4648), concretely -/

/-- Truncation to a 64-bit word. -/
def w64 (n : Nat) : Nat := n % 2 ^ 64

/-- 64-bit right rotation. -/
def rotr64 (x n : Nat) : Nat :=
  w64 ((x >>> n) ||| (x <<< (64 - n)))

/-- 64-bit bitwise complement (valid for `x < 2^64`). -/
def not64 (x : Nat) : Nat := x ^^^ (2 ^ 64 - 1)

def shaCh (x y z : Nat) : Nat := (x &&& y) ^^^ (not64 x &&& z)

def shaMaj (x y z : Nat) : Nat := (x &&& y) ^^^ (x &&& z) ^^^ (y &&& z)

def bigSigma0 (x : Nat) : Nat := rotr64 x 28 ^^^ rotr64 x 34 ^^^ rotr64 x 39

def bigSigma1 (x : Nat) : Nat := rotr64 x 14 ^^^ rotr64 x 18 ^^^ rotr64 x 41

def smallSigma0 (x : Nat) : Nat := rotr64 x 1 ^^^ rotr64 x 8 ^^^ (x >>> 7)

def smallSigma1 (x : Nat) : Nat := rotr64 x 19 ^^^ rotr64 x 61 ^^^ (x >>> 6)

/-- A 64-bit word from its high and low 32-bit halves. -/
def w32p (hi lo : Nat) : Nat := hi * 4294967296 + lo

/-- The 80 SHA-512 round constants (FIPS 180-4), each as its two 32-bit
halves. -/
def sha512K : List Nat :=
  [w32p 0x428a2f98 0xd728ae22, w32p 0x71374491 0x23ef65cd,
   w32p 0xb5c0fbcf 0xec4d3b2f, w32p 0xe9b5dba5 0x8189dbbc,
   w32p 0x3956c25b 0xf348b538, w32p 0x59f111f1 0xb605d019,
   w32p 0x923f82a4 0xaf194f9b, w32p 0xab1c5ed5 0xda6d8118,
   w32p 0xd807aa98 0xa3030242, w32p 0x12835b01 0x45706fbe,
   w32p 0x243185be 0x4ee4b28c, w32p 0x550c7dc3 0xd5ffb4e2,
   w32p 0x72be5d74 0xf27b896f, w32p 0x80deb1fe 0x3b1696b1,
   w32p 0x9bdc06a7 0x25c71235, w32p 0xc19bf174 0xcf692694,
   w32p 0xe49b69c1 0x9ef14ad2, w32p 0xefbe4786 0x384f25e3,
   w32p 0x0fc19dc6 0x8b8cd5b5, w32p 0x240ca1cc 0x77ac9c65,
   w32p 0x2de92c6f 0x592b0275, w32p 0x4a7484aa 0x6ea6e483,
   w32p 0x5cb0a9dc 0xbd41fbd4, w32p 0x76f988da 0x831153b5,
   w32p 0x983e5152 0xee66dfab, w32p 0xa831c66d 0x2db43210,
   w32p 0xb00327c8 0x98fb213f, w32p 0xbf597fc7 0xbeef0ee4,
   w32p 0xc6e00bf3 0x3da88fc2, w32p 0xd5a79147 0x930aa725,
   w32p 0x06ca6351 0xe003826f, w32p 0x14292967 0x0a0e6e70,
   w32p 0x27b70a85 0x46d22ffc, w32p 0x2e1b2138 0x5c26c926,
   w32p 0x4d2c6dfc 0x5ac42aed, w32p 0x53380d13 0x9d95b3df,
   w32p 0x650a7354 0x8baf63de, w32p 0x766a0abb 0x3c77b2a8,
   w32p 0x81c2c92e 0x47edaee6, w32p 0x92722c85 0x1482353b,
   w32p 0xa2bfe8a1 0x4cf10364, w32p 0xa81a664b 0xbc423001,
   w32p 0xc24b8b70 0xd0f89791, w32p 0xc76c51a3 0x0654be30,
   w32p 0xd192e819 0xd6ef5218, w32p 0xd6990624 0x5565a910,
   w32p 0xf40e3585 0x5771202a, w32p 0x106aa070 0x32bbd1b8,
   w32p 0x19a4c116 0xb8d2d0c8, w32p 0x1e376c08 0x5141ab53,
   w32p 0x2748774c 0xdf8eeb99, w32p 0x34b0bcb5 0xe19b48a8,
   w32p 0x391c0cb3 0xc5c95a63, w32p 0x4ed8aa4a 0xe3418acb,
   w32p 0x5b9cca4f 0x7763e373, w32p 0x682e6ff3 0xd6b2b8a3,
   w32p 0x748f82ee 0x5defb2fc, w32p 0x78a5636f 0x43172f60,
   w32p 0x84c87814 0xa1f0ab72, w32p 0x8cc70208 0x1a6439ec,
   w32p 0x90befffa 0x23631e28, w32p 0xa4506ceb 0xde82bde9,
   w32p 0xbef9a3f7 0xb2c67915, w32p 0xc67178f2 0xe372532b,
   w32p 0xca273ece 0xea26619c, w32p 0xd186b8c7 0x21c0c207,
   w32p 0xeada7dd6 0xcde0eb1e, w32p 0xf57d4f7f 0xee6ed178,
   w32p 0x06f067aa 0x72176fba, w32p 0x0a637dc5 0xa2c898a6,
   w32p 0x113f9804 0xbef90dae, w32p 0x1b710b35 0x131c471b,
   w32p 0x28db77f5 0x23047d84, w32p 0x32caab7b 0x40c72493,
   w32p 0x3c9ebe0a 0x15c9bebc, w32p 0x431d67c4 0x9c100d4c,
   w32p 0x4cc5d4be 0xcb3e42b6, w32p 0x597f299c 0xfc657e2a,
   w32p 0x5fcb6fab 0x3ad6faec, w32p 0x6c44198c 0x4a475817]

/-- The SHA-512 initial hash value (FIPS 180-4), each word as its two 32-bit
halves. -/
def sha512H0 : List Nat :=
  [w32p 0x6a09e667 0xf3bcc908, w32p 0xbb67ae85 0x84caa73b,
   w32p 0x3c6ef372 0xfe94f82b, w32p 0xa54ff53a 0x5f1d36f1,
   w32p 0x510e527f 0xade682d1, w32p 0x9b05688c 0x2b3e6c1f,
   w32p 0x1f83d9ab 0xfb41bd6b, w32p 0x5be0cd19 0x137e2179]

/-- Big-endian rendering of `n` into `width` bytes. -/
def natToBytesBE (n width : Nat) : List Nat :=
  (List.range width).map fun i => (n >>> (8 * (width - 1 - i))) % 256

/-- Big-endian reading of a list of bytes as one number. -/
def bytesToNatBE (bs : List Nat) : Nat :=
  bs.foldl (fun acc b => acc * 256 + b) 0

/-- Split a list into chunks of `n`, with explicit fuel. -/
def chunksOf (n : Nat) : Nat → List Nat → List (List Nat)
  | 0, _ => []
  | _, [] => []
  | fuel + 1, xs => xs.take n :: chunksOf n fuel (xs.drop n)

/-- SHA-512 message padding: `0x80`, zeros to 112 mod 128, 16-byte bit length. -/
def sha512Pad (msg : List Nat) : List Nat :=
  let L := msg.length
  let k := (239 - L % 128) % 128
  msg ++ [128] ++ List.replicate k 0 ++ natToBytesBE (8 * L) 16

/-- The next word of the message schedule, given the schedule so far reversed
(most recent word first). -/
def scheduleNext (r : List Nat) : Nat :=
  w64 (smallSigma1 (r.getD 1 0) + r.getD 6 0 + smallSigma0 (r.getD 14 0) + r.getD 15 0)

/-- Extend the reversed message schedule by `n` words. -/
def scheduleExtend (r : List Nat) : Nat → List Nat
  | 0 => r
  | n + 1 => scheduleExtend (scheduleNext r :: r) n

/-- The full 80-word message schedule of one 128-byte block. -/
def sha512Schedule (block : List Nat) : List Nat :=
  let w16 := (chunksOf 8 16 block).map bytesToNatBE
  (scheduleExtend w16.reverse 64).reverse

/-- One round of the SHA-512 compression function on the state `[a,…,h]`. -/
def sha512Round (st : List Nat) (kw : Nat × Nat) : List Nat :=
  match st with
  | [a, b, c, d, e, f, g, h] =>
    let t1 := w64 (h + bigSigma1 e + shaCh e f g + kw.1 + kw.2)
    let t2 := w64 (bigSigma0 a + shaMaj a b c)
    [w64 (t1 + t2), a, b, c, w64 (d + t1), e, f, g]
  | other => other

/-- Process one 128-byte block. -/
def sha512Block (h : List Nat) (block : List Nat) : List Nat :=
  let w := sha512Schedule block
  let st := (sha512K.zip w).foldl sha512Round h
  List.zipWith (fun x y => w64 (x + y)) h st

/-- SHA-512 of a byte sequence, as the 64 digest bytes. -/
def sha512 (msg : List Nat) : List Nat :=
  let padded := sha512Pad msg
  let blocks := chunksOf 128 padded.length padded
  let h := blocks.foldl sha512Block sha512H0
  List.flatten (h.map fun x => natToBytesBE x 8)

/-- The 128-byte block-sized HMAC key: hash long keys, zero-pad short ones. -/
def hmacKeyPad (key : List Nat) : List Nat :=
  let k0 := if 128 < key.length then sha512 key else key
  k0 ++ List.replicate (128 - k0.length) 0

/-- HMAC-SHA512 over bytes (RFC 2104). -/
def hmacSha512 (key msg : List Nat) : List Nat :=
  sha512 ((hmacKeyPad key).map (fun b => b ^^^ 0x5c) ++
    sha512 ((hmacKeyPad key).map (fun b => b ^^^ 0x36) ++ msg))

/-- UTF-8 encoding of one character. -/
def utf8Char (c : Char) : List Nat :=
  let n := c.toNat
  if n < 0x80 then [n]
  else if n < 0x800 then [0xc0 ||| (n >>> 6), 0x80 ||| (n &&& 0x3f)]
  else if n < 0x10000 then
    [0xe0 ||| (n >>> 12), 0x80 ||| ((n >>> 6) &&& 0x3f), 0x80 ||| (n &&& 0x3f)]
  else
    [0xf0 ||| (n >>> 18), 0x80 ||| ((n >>> 12) &&& 0x3f),
     0x80 ||| ((n >>> 6) &&& 0x3f), 0x80 ||| (n &&& 0x3f)]

/-- UTF-8 encoding of a string as bytes. -/
def utf8 (s : String) : List Nat :=
  List.flatten (s.data.map utf8Char)

/-- The Base64 alphabet (RFC 4648). -/
def b64Alphabet : String :=
  "ABCDEFGHIJKLMNOPQRSTUVWXYZabcdefghijklmnopqrstuvwxyz0123456789+/"

/-- The Base64 digit for a 6-bit value. -/
def b64Digit (n : Nat) : Char := b64Alphabet.data.getD n 'A'

/-- Base64 encoding of byte groups, with explicit fuel. -/
def b64Groups : Nat → List Nat → List Char
  | 0, _ => []
  | _, [] => []
  | fuel + 1, b0 :: rest =>
    match rest with
    | b1 :: b2 :: rest2 =>
      b64Digit (b0 >>> 2) :: b64Digit (((b0 &&& 3) <<< 4) ||| (b1 >>> 4)) ::
        b64Digit (((b1 &&& 15) <<< 2) ||| (b2 >>> 6)) :: b64Digit (b2 &&& 63) ::
        b64Groups fuel rest2
    | [b1] =>
      [b64Digit (b0 >>> 2), b64Digit (((b0 &&& 3) <<< 4) ||| (b1 >>> 4)),
       b64Digit ((b1 &&& 15) <<< 2), '=']
    | [] =>
      [b64Digit (b0 >>> 2), b64Digit ((b0 &&& 3) <<< 4), '=', '=']

/-- Base64 encoding of a byte sequence (RFC 4648, with padding). -/
def base64Encode (bs : List Nat) : String :=
  String.mk (b64Groups bs.length bs)

/-- Node `Buffer.from(bytes)`: contents coerced to octets. -/
def bufferFrom (bs : List Nat) : List Nat :=
  bs.map (fun b => b % 256)

/-! ## JSON serialization (the fragment `JSON.stringify` needs here) -/

/-- JSON escaping of one character, as `JSON.stringify` performs it. -/
def jsonEscapeChar (c : Char) : List Char :=
  if c.toNat = 34 then [Char.ofNat 92, Char.ofNat 34]
  else if c.toNat = 92 then [Char.ofNat 92, Char.ofNat 92]
  else if c.toNat = 8 then [Char.ofNat 92, 'b']
  else if c.toNat = 9 then [Char.ofNat 92, 't']
  else if c.toNat = 10 then [Char.ofNat 92, 'n']
  else if c.toNat = 12 then [Char.ofNat 92, 'f']
  else if c.toNat = 13 then [Char.ofNat 92, 'r']
  else if c.toNat < 32 then
    [Char.ofNat 92, 'u', '0', '0',
     "0123456789abcdef".data.getD (c.toNat / 16) '0',
     "0123456789abcdef".data.getD (c.toNat % 16) '0']
  else [c]

/-- A JSON string literal for `s`, escaped and double-quoted. -/
def jsonQuote (s : String) : String :=
  String.mk (Char.ofNat 34 :: List.flatten (s.data.map jsonEscapeChar) ++ [Char.ofNat 34])

/-- A JSON rendering of an optional integer (`null` for `none`). -/
def jsonOptInt : Option Int → String
  | none => "null"
  | some n => toString n

/-- The later fields of a JSON object text, each rendered as
`,"key":value` from its already-rendered value. -/
def jsonFieldsTail : List (String × String) → String
  | [] => ""
  | f :: fs => "," ++ jsonQuote f.1 ++ ":" ++ f.2 ++ jsonFieldsTail fs

/-- A JSON object text from already-rendered `(key, value)` pairs, in order.
This is the generic serializer used to state canonical-key-order claims. -/
def jsonObject : List (String × String) → String
  | [] => "\x7b\x7d"
  | f :: fs => "\x7b" ++ jsonQuote f.1 ++ ":" ++ f.2 ++ jsonFieldsTail fs ++ "\x7d"

/-! ## Data model (from the TypeScript interfaces) -/

/-- `PurchaseData.payer` of `packages/aba-payway/src/index.ts` (all fields optional). -/
structure PayerInfo where
  firstname : Option String
  lastname : Option String
  phone : Option String
  email : Option String

/-- `PurchaseData` of `packages/aba-payway/src/index.ts`. -/
structure PurchaseData where
  tran_id : String
  amount : String
  payer : Option PayerInfo
  return_params : Option String
  payment_option : Option String

/-- `CheckoutCustomerInfo` of `src/unnamed/part_001` / `part_002`. -/
structure CheckoutCustomerInfo where
  firstname : String
  lastname : String
  phone : String
  email : String

/-- `CheckoutPaymentData` of `src/unnamed/part_001` / `part_002`. -/
structure CheckoutPaymentData where
  tranId : String
  amount : String
  customerInfo : CheckoutCustomerInfo
  returnParams : Option String

/-- `CheckoutFormData` of `src/unnamed/part_001` / `part_002`. -/
structure CheckoutFormData where
  hash : String
  tran_id : String
  amount : String
  firstname : String
  lastname : String
  phone : String
  email : String
  return_params : String
  merchant_id : String
  req_time : String

/-- `CheckoutResponse` of `src/unnamed/part_001` / `part_002`. -/
structure CheckoutResponse where
  formData : CheckoutFormData
  apiUrl : String

/-- The `"KHR" | "USD"` currency union. -/
inductive Currency where
  | KHR
  | USD
deriving DecidableEq

/-- The string a `Currency` value denotes. -/
def currencyStr : Currency → String
  | .KHR => "KHR"
  | .USD => "USD"

/-- `ABAPayWayConfig` of `src/unnamed/part_002`. -/
structure ABAPayWayConfig where
  baseUrl : String
  merchantId : String
  apiKey : String
  rsaPublicKey : Option String
  sandbox : Option Bool

/-- `PaymentRequest.customer` of `src/unnamed/part_002`. -/
structure CustomerInfo where
  firstName : String
  lastName : String
  email : String
  phone : String

/-- `PaymentRequest` of `src/unnamed/part_002`. -/
structure PaymentRequest where
  transactionId : String
  amount : String
  currency : Option Currency
  customer : CustomerInfo
  returnUrl : Option String
  returnParams : Option String

/-- `PaymentResponse` of `src/unnamed/part_002`. -/
structure PaymentResponse where
  success : Bool
  transactionId : String
  htmlForm : String
  checkoutUrl : String
  error : Option String

/-- The process environment variables `getCheckoutApiUrl` reads
(`""` models an unset variable; both are falsy in the JS condition). -/
structure EnvVars where
  abaSandboxCheckoutUrl : String
  abaProductionCheckoutUrl : String

/-- The wall clock at a call: the `yyyyMMddHHmmss`-formatted UTC time and the
(rounded) UNIX epoch seconds, both read at call time. -/
structure Clock where
  requestTime : String
  epochSeconds : Int

/-- The payload fields of a payment-link (Mode B) request. -/
structure PaymentLinkPayload where
  request_time : String
  merchant_id : String
  merchant_auth : String
deriving DecidableEq

/-- The error raised by `createPaymentLink` in `src/unnamed/part_002` when no
RSA key is configured (spec taxonomy: `ConfigurationError`). -/
inductive PayError where
  | configurationError (msg : String)
deriving DecidableEq

/-! ## Mode A: HMAC transaction signer (from the source) -/

/-- `create_hash` of `packages/aba-payway/src/index.ts` (also in `part_000` /
`part_001` / `part_002`): join the values with no delimiter, HMAC-SHA512 with
the API key, digest directly to Base64 (`.digest("base64")`). -/
def create_hash (api_key : String) (values : List String) : String :=
  base64Encode (hmacSha512 (utf8 api_key) (utf8 (joinAll values)))

/-- `createCheckoutHash` of `src/unnamed/part_001` / `part_002`: join the
values, HMAC-SHA512, raw `.digest()`, then `Buffer.from(hmac).toString('base64')`. -/
def createCheckoutHash (apiKey : String) (values : List String) : String :=
  base64Encode (bufferFrom (hmacSha512 (utf8 apiKey) (utf8 (joinAll values))))

/-- The `signatureValues` array of `createTransaction`
(`packages/aba-payway/src/index.ts`, lines 62-73). -/
def createTransactionSignatureValues (merchant_id : String) (purchaseData : PurchaseData)
    (now : String) : List String :=
  [now,
   merchant_id,
   purchaseData.tran_id,
   purchaseData.amount,
   jsOrEmpty (purchaseData.payer.bind PayerInfo.firstname),
   jsOrEmpty (purchaseData.payer.bind PayerInfo.lastname),
   jsOrEmpty (purchaseData.payer.bind PayerInfo.email),
   jsOrEmpty (purchaseData.payer.bind PayerInfo.phone),
   jsOrEmpty purchaseData.payment_option,
   jsOrEmpty purchaseData.return_params]

/-- The hash `createTransaction` embeds in its form. -/
def createTransactionHash (merchant_id api_key : String) (purchaseData : PurchaseData)
    (now : String) : String :=
  create_hash api_key (createTransactionSignatureValues merchant_id purchaseData now)

/-- The `signatureValues` array of `createCheckoutPayment`
(`src/unnamed/part_002`, lines 164-174; identically `part_001`, lines 166-176). -/
def checkoutSignatureValues (merchantId : String) (paymentData : CheckoutPaymentData)
    (now : String) : List String :=
  [now,
   merchantId,
   paymentData.tranId,
   paymentData.amount,
   paymentData.customerInfo.firstname,
   paymentData.customerInfo.lastname,
   paymentData.customerInfo.email,
   paymentData.customerInfo.phone,
   jsOrEmpty paymentData.returnParams]

/-! ## URL resolver (from `src/unnamed/part_002`, `getCheckoutApiUrl`) -/

/-- The hardcoded sandbox default checkout URL. -/
def sandboxCheckoutUrl : String :=
  "https://checkout-sandbox.payway.com.kh/api/payment-gateway/v1/payments/purchase"

/-- The hardcoded production default checkout URL. -/
def productionCheckoutUrl : String :=
  "https://checkout.payway.com.kh/api/payment-gateway/v1/payments/purchase"

/-- `getCheckoutApiUrl` of `src/unnamed/part_002` (lines 109-151), with the two
environment variables passed in explicitly.  `stripTrailingSlash` is the
`replace(/\/$/, '')` of the source, applied where the source applies it. -/
def getCheckoutApiUrl (env : EnvVars) (baseUrl : String) (useSandbox : Bool) : String :=
  let envUrl := if useSandbox then env.abaSandboxCheckoutUrl else env.abaProductionCheckoutUrl
  if envUrl ≠ "" then envUrl
  else if baseUrl ≠ "" ∧ (strStartsWith baseUrl "http://" ∨ strStartsWith baseUrl "https://") then
    if strContains (stripTrailingSlash baseUrl) "/api/payment-gateway/" then
      stripTrailingSlash baseUrl
    else
      stripTrailingSlash baseUrl ++ "/api/payment-gateway/v1/payments/purchase"
  else if baseUrl ≠ "" ∧ ¬ strStartsWith baseUrl "http" then
    if strContains (stripTrailingSlash baseUrl) "/api/payment-gateway/" then
      "https://" ++ stripTrailingSlash baseUrl
    else
      "https://" ++ stripTrailingSlash baseUrl ++ "/api/payment-gateway/v1/payments/purchase"
  else if useSandbox then sandboxCheckoutUrl else productionCheckoutUrl

/-! ## Checkout pipeline (from `src/unnamed/part_002`) -/

/-- `createCheckoutPayment` of `src/unnamed/part_002` (lines 159-197). -/
def createCheckoutPayment (env : EnvVars) (merchantId apiKey baseUrl : String)
    (paymentData : CheckoutPaymentData) (useSandbox : Bool) (now : String) : CheckoutResponse :=
  let returnParams := jsOrEmpty paymentData.returnParams
  let hash := createCheckoutHash apiKey (checkoutSignatureValues merchantId paymentData now)
  { formData :=
      { hash := hash
        tran_id := paymentData.tranId
        amount := paymentData.amount
        firstname := paymentData.customerInfo.firstname
        lastname := paymentData.customerInfo.lastname
        phone := paymentData.customerInfo.phone
        email := paymentData.customerInfo.email
        return_params := returnParams
        merchant_id := merchantId
        req_time := now }
    apiUrl := getCheckoutApiUrl env baseUrl useSandbox }

/-- `generateCheckoutForm` of `src/unnamed/part_002` (lines 205-238): the
auto-submitting HTML document around the hidden-input form. -/
def generateCheckoutForm (formData : CheckoutFormData) (apiUrl : String) : String :=
  "\n      <!DOCTYPE html>\n      <html>\n      <head>\n        <title>Redirecting to ABA PayWay...</title>\n        <style>\n          body \x7b font-family: Arial, sans-serif; text-align: center; padding: 50px; \x7d\n          .loading \x7b font-size: 18px; color: #666; \x7d\n        </style>\n      </head>\n      <body>\n        <div class=\"loading\">Redirecting to ABA PayWay checkout...</div>\n        <form id=\"aba_merchant_request\" method=\"POST\" action=\"" ++
  apiUrl ++ "\">\n          <input type=\"hidden\" name=\"hash\" value=\"" ++
  formData.hash ++ "\" />\n          <input type=\"hidden\" name=\"tran_id\" value=\"" ++
  formData.tran_id ++ "\" />\n          <input type=\"hidden\" name=\"amount\" value=\"" ++
  formData.amount ++ "\" />\n          <input type=\"hidden\" name=\"firstname\" value=\"" ++
  formData.firstname ++ "\" />\n          <input type=\"hidden\" name=\"lastname\" value=\"" ++
  formData.lastname ++ "\" />\n          <input type=\"hidden\" name=\"phone\" value=\"" ++
  formData.phone ++ "\" />\n          <input type=\"hidden\" name=\"email\" value=\"" ++
  formData.email ++ "\" />\n          <input type=\"hidden\" name=\"return_params\" value=\"" ++
  formData.return_params ++ "\" />\n          <input type=\"hidden\" name=\"merchant_id\" value=\"" ++
  formData.merchant_id ++ "\" />\n          <input type=\"hidden\" name=\"req_time\" value=\"" ++
  formData.req_time ++ "\" />\n        </form>\n        <script>\n          document.addEventListener(\x27DOMContentLoaded\x27, function() \x7b\n            document.getElementById(\x27aba_merchant_request\x27).submit();\n          \x7d);\n        </script>\n      </body>\n      </html>\n    "

/-- `createCheckout` of `src/unnamed/part_002` (lines 312-320): the pair
`(htmlForm, checkoutUrl)`. -/
def createCheckout (env : EnvVars) (config : ABAPayWayConfig)
    (paymentData : CheckoutPaymentData) (useSandbox : Bool) (now : String) : String × String :=
  let checkoutResponse :=
    createCheckoutPayment env config.merchantId config.apiKey config.baseUrl paymentData useSandbox now
  (generateCheckoutForm checkoutResponse.formData checkoutResponse.apiUrl,
   checkoutResponse.apiUrl)

/-- The configuration error message of `createABACheckout`. -/
def msgMissingConfig : String :=
  "Missing required ABA PayWay configuration: baseUrl, merchantId, and apiKey are required"

/-- The payment-data error message of `createABACheckout`. -/
def msgMissingPayment : String :=
  "Missing required payment data: transactionId, amount, and customer are required"

/-- The customer-data error message of `createABACheckout`. -/
def msgMissingCustomer : String :=
  "Missing required customer data: firstName, lastName, email, and phone are required"

/-- The `catch` branch of `createABACheckout`: the failure `PaymentResponse`. -/
def failedResponse (payment : PaymentRequest) (msg : String) : PaymentResponse :=
  { success := false
    transactionId := payment.transactionId
    htmlForm := ""
    checkoutUrl := ""
    error := some msg }

/-- `createABACheckout` of `src/unnamed/part_002` (lines 329-385).  The three
`throw new Error(...)` sites are the only throwing statements inside the `try`,
so the `try/catch` is embedded as an if-chain returning the `catch` branch's
failure response with the corresponding message. -/
def createABACheckout (env : EnvVars) (config : ABAPayWayConfig)
    (payment : PaymentRequest) (now : String) : PaymentResponse :=
  if config.baseUrl = "" ∨ config.merchantId = "" ∨ config.apiKey = "" then
    failedResponse payment msgMissingConfig
  else if payment.transactionId = "" ∨ payment.amount = "" then
    failedResponse payment msgMissingPayment
  else if payment.customer.firstName = "" ∨ payment.customer.lastName = "" ∨
      payment.customer.email = "" ∨ payment.customer.phone = "" then
    failedResponse payment msgMissingCustomer
  else
    let checkoutData : CheckoutPaymentData :=
      { tranId := payment.transactionId
        amount := payment.amount
        customerInfo :=
          { firstname := payment.customer.firstName
            lastname := payment.customer.lastName
            email := payment.customer.email
            phone := payment.customer.phone }
        returnParams := some (jsOrEmpty payment.returnParams) }
    let useSandbox := config.sandbox != some false
    let checkoutResult := createCheckout env config checkoutData useSandbox now
    { success := true
      transactionId := payment.transactionId
      htmlForm := checkoutResult.1
      checkoutUrl := checkoutResult.2
      error := none }

/-! ## Mode B: RSA-enveloped payment link (from the source) -/

/-- `JSON.stringify(merchant_authObj)` for the object literal of
`createPaymentLink` (`packages/aba-payway/src/index.ts`, lines 107-116;
identically `part_001` / `part_002`): insertion key order `mc_id`, `title`,
`amount`, `currency`, `expired_date`, `return_url`. -/
def merchantAuthJson (mc_id title : String) (amount : Int) (currency : Currency)
    (expired_date : Option Int) (return_url : String) : String :=
  "\x7b\"mc_id\":" ++ jsonQuote mc_id ++
  ",\"title\":" ++ jsonQuote title ++
  ",\"amount\":" ++ toString amount ++
  ",\"currency\":" ++ jsonQuote (currencyStr currency) ++
  ",\"expired_date\":" ++ jsonOptInt expired_date ++
  ",\"return_url\":" ++ jsonQuote return_url ++ "\x7d"

/-- The plaintext `createPaymentLink` of `packages/aba-payway/src/index.ts`
actually passes to `publicEncrypt`:
`JSON.stringify(merchant_authObj).substring(0, 117)`, where `expired_date` is
`Math.round(DateTime.now().plus({seconds: 120}).toSeconds())`. -/
def paymentLinkIndexPlaintext (merchant_id title : String) (amount : Int)
    (currency : Currency) (return_url : String) (clock : Clock) : String :=
  jsTake (merchantAuthJson merchant_id title amount currency
    (some (clock.epochSeconds + 120)) return_url) 117

/-- `createPaymentLink` of `packages/aba-payway/src/index.ts` (lines 100-159):
the `payload` record and the outer hash it posts (the `fetch` transport is out
of scope).  `rsaEnc` stands for `publicEncrypt` with `RSA_PKCS1_PADDING`. -/
def createPaymentLinkIndex (rsaEnc : String → List Nat → List Nat)
    (merchant_id api_key rsa_public_key : String) (title : String) (amount : Int)
    (currency : Currency) (return_url : String) (clock : Clock) :
    PaymentLinkPayload × String :=
  let merchant_auth := base64Encode (rsaEnc rsa_public_key
    (utf8 (paymentLinkIndexPlaintext merchant_id title amount currency return_url clock)))
  let payload : PaymentLinkPayload :=
    { request_time := clock.requestTime
      merchant_id := merchant_id
      merchant_auth := merchant_auth }
  (payload,
   create_hash api_key [payload.request_time, payload.merchant_id, payload.merchant_auth])

/-- `createPaymentLink` of `src/unnamed/part_002` (lines 240-303): guards on
the missing RSA key with `throw new Error(...)` before `publicEncrypt`, and
encrypts `Buffer.from(JSON.stringify(merchant_authObj))` untruncated. -/
def createPaymentLinkV2 (rsaEnc : String → List Nat → List Nat)
    (config : ABAPayWayConfig) (title : String) (amount : Int) (currency : Currency)
    (return_url : String) (clock : Clock) :
    Except PayError (PaymentLinkPayload × String) :=
  let json := merchantAuthJson config.merchantId title amount currency
    (some (clock.epochSeconds + 120)) return_url
  if !(jsTruthyOpt config.rsaPublicKey) then
    .error (.configurationError "RSA public key is required for payment creation")
  else
    let merchant_auth := base64Encode (rsaEnc (config.rsaPublicKey.getD "") (utf8 json))
    let payload : PaymentLinkPayload :=
      { request_time := clock.requestTime
        merchant_id := config.merchantId
        merchant_auth := merchant_auth }
    .ok (payload,
      create_hash config.apiKey
        [payload.request_time, payload.merchant_id, payload.merchant_auth])

/-- `JSON.stringify` of the object literal in `createPaymentLink` of
`src/unnamed/part_000` (lines 43-50), whose `expired_date` is the literal
`null`. -/
def legacyMerchantAuthJson (mc_id title : String) (amount : Int) (currency : Currency)
    (return_url : String) : String :=
  "\x7b\"mc_id\":" ++ jsonQuote mc_id ++
  ",\"title\":" ++ jsonQuote title ++
  ",\"amount\":" ++ toString amount ++
  ",\"currency\":" ++ jsonQuote (currencyStr currency) ++
  ",\"expired_date\":null,\"return_url\":" ++ jsonQuote return_url ++ "\x7d"

/-! ## Spec-side canonical definitions (from the claims' words, for comparison) -/

/-- The canonical purchase signing order of the spec: request timestamp,
merchant id, transaction id, amount, first name, last name, email, phone,
[payment option], return params — with the payment option present exactly in
the checkout-v2 profile. -/
def purchaseCanonicalValues (ts mid tid amt fn ln em ph : String)
    (paymentOption : Option String) (rp : String) : List String :=
  [ts, mid, tid, amt, fn, ln, em, ph] ++ paymentOption.toList ++ [rp]

/-- The Mode B envelope JSON as the claim words it: a JSON object with fixed
key order merchant id (`mc_id`), title, amount, currency, expiry, return URL. -/
def modeBCanonicalJson (mid title : String) (amount : Int) (currency : Currency)
    (expiry : Option Int) (returnUrl : String) : String :=
  jsonObject
    [("mc_id", jsonQuote mid),
     ("title", jsonQuote title),
     ("amount", toString amount),
     ("currency", jsonQuote (currencyStr currency)),
     ("expired_date", jsonOptInt expiry),
     ("return_url", jsonQuote returnUrl)]

/-- The C4 claim's resolution chain, literally as the claim states it:
(1) the per-environment override; (2) a configured base URL already containing
the API path segment, used verbatim after trailing-slash stripping; (3) a bare
host, prefixed with `https://` and the standard path appended; (4) hardcoded
defaults keyed by the sandbox flag. -/
def resolveClaimChain (env : EnvVars) (baseUrl : String) (useSandbox : Bool) : String :=
  let envUrl := if useSandbox then env.abaSandboxCheckoutUrl else env.abaProductionCheckoutUrl
  if envUrl ≠ "" then envUrl
  else if baseUrl ≠ "" ∧ strContains (stripTrailingSlash baseUrl) "/api/payment-gateway/" then
    stripTrailingSlash baseUrl
  else if baseUrl ≠ "" ∧
      ¬ (strStartsWith baseUrl "http://" ∨ strStartsWith baseUrl "https://") then
    "https://" ++ baseUrl ++ "/api/payment-gateway/v1/payments/purchase"
  else if useSandbox then sandboxCheckoutUrl else productionCheckoutUrl

/-- The amended C4 resolution chain (first match wins): (1) the
per-environment override; (2) a base URL carrying an `http://` or `https://`
scheme and already containing the API path segment, used verbatim after
trailing-slash stripping; (2') such a base URL without the path segment, with
the standard path appended; (3) a non-empty base URL not starting with `http`,
prefixed with `https://` after trailing-slash stripping, used with its path if
it already contains the segment, else with the standard path appended;
(4) hardcoded defaults keyed by the sandbox flag. -/
def resolveAmendedChain (env : EnvVars) (baseUrl : String) (useSandbox : Bool) : String :=
  let envUrl := if useSandbox then env.abaSandboxCheckoutUrl else env.abaProductionCheckoutUrl
  if envUrl ≠ "" then envUrl
  else if (baseUrl ≠ "" ∧ (strStartsWith baseUrl "http://" ∨ strStartsWith baseUrl "https://")) ∧
      strContains (stripTrailingSlash baseUrl) "/api/payment-gateway/" then
    stripTrailingSlash baseUrl
  else if baseUrl ≠ "" ∧ (strStartsWith baseUrl "http://" ∨ strStartsWith baseUrl "https://") then
    stripTrailingSlash baseUrl ++ "/api/payment-gateway/v1/payments/purchase"
  else if (baseUrl ≠ "" ∧ ¬ strStartsWith baseUrl "http") ∧
      strContains (stripTrailingSlash baseUrl) "/api/payment-gateway/" then
    "https://" ++ stripTrailingSlash baseUrl
  else if baseUrl ≠ "" ∧ ¬ strStartsWith baseUrl "http" then
    "https://" ++ stripTrailingSlash baseUrl ++ "/api/payment-gateway/v1/payments/purchase"
  else if useSandbox then sandboxCheckoutUrl else productionCheckoutUrl

/-- An RSA-encryption stand-in used only to instantiate witnesses: it maps the
plaintext bytes through unchanged. -/
def rsaStub (_key : String) (plaintext : List Nat) : List Nat :=
  plaintext

/-! ## Helper lemmas -/

/-- Every byte produced by `natToBytesBE` is an octet. -/
theorem mem_natToBytesBE_lt (n width : Nat) : ∀ b ∈ natToBytesBE n width, b < 256 := by
  intro b hb
  simp only [natToBytesBE, List.mem_map] at hb
  obtain ⟨i, _, hi⟩ := hb
  omega

/-- Every byte of a SHA-512 digest is an octet. -/
theorem mem_sha512_lt (msg : List Nat) : ∀ b ∈ sha512 msg, b < 256 := by
  intro b hb
  simp only [sha512, List.mem_flatten, List.mem_map] at hb
  obtain ⟨l, ⟨x, _, hx⟩, hb⟩ := hb
  exact mem_natToBytesBE_lt x 8 b (hx ▸ hb)

/-- Every byte of an HMAC-SHA512 digest is an octet. -/
theorem mem_hmacSha512_lt (key msg : List Nat) : ∀ b ∈ hmacSha512 key msg, b < 256 := by
  unfold hmacSha512
  exact mem_sha512_lt _

/-- Merging three adjacent string segments inside a right-associated append. -/
theorem strMerge3 (a b c d : String) (h : a ++ b ++ c = d) (X : String) :
    a ++ (b ++ (c ++ X)) = d ++ X := by
  rw [← String.append_assoc, ← String.append_assoc, h]

/-- `Buffer.from` of octet data is the identity. -/
theorem bufferFrom_eq_self (bs : List Nat) (h : ∀ b ∈ bs, b < 256) : bufferFrom bs = bs := by
  unfold bufferFrom
  induction bs with
  | nil => rfl
  | cons x xs ih =>
    simp only [List.map_cons, List.cons.injEq]
    exact ⟨Nat.mod_eq_of_lt (h x (by simp)), ih fun b hb => h b (by simp [hb])⟩

/-! ## Claims -/

/-- C1: for every purchase checkout call, the HMAC signature input is exactly
the canonical ordered sequence (request timestamp, merchant id, transaction id,
amount, first name, last name, email, phone, payment option, return params);
the checkout-v2 profile (`createTransaction` of `index.ts`) carries the payment
option and the checkout-v1 profile (`createCheckoutPayment` of
`part_001`/`part_002`) is the same order without it. -/
theorem purchase_signature_canonical_order :
    ∀ (mid : String) (d : PurchaseData) (now : String)
      (mid2 : String) (p : CheckoutPaymentData) (now2 : String),
      createTransactionSignatureValues mid d now =
        purchaseCanonicalValues now mid d.tran_id d.amount
          (jsOrEmpty (d.payer.bind PayerInfo.firstname))
          (jsOrEmpty (d.payer.bind PayerInfo.lastname))
          (jsOrEmpty (d.payer.bind PayerInfo.email))
          (jsOrEmpty (d.payer.bind PayerInfo.phone))
          (some (jsOrEmpty d.payment_option))
          (jsOrEmpty d.return_params) ∧
      checkoutSignatureValues mid2 p now2 =
        purchaseCanonicalValues now2 mid2 p.tranId p.amount
          p.customerInfo.firstname p.customerInfo.lastname
          p.customerInfo.email p.customerInfo.phone
          none
          (jsOrEmpty p.returnParams) := by
  intro mid d now mid2 p now2
  exact ⟨rfl, rfl⟩

set_option maxRecDepth 10000 in
/-- C2: evaluation of the code at the failing input.  The serialized
merchant-auth JSON of the `part_000` example call is 142 characters, beyond
the 117-byte capacity of a 1024-bit RSA key with PKCS#1 v1.5 padding; the
plaintext `createPaymentLink` of `index.ts` actually encrypts is the silent
`substring(0, 117)` truncation of that JSON, not the JSON and not an error. -/
theorem paymentLink_truncates_oversized_json :
    117 < (merchantAuthJson "ec461403" "Test Payment" 1000 Currency.KHR
      (some 1760000000) "https://example.com/return").length ∧
    paymentLinkIndexPlaintext "ec461403" "Test Payment" 1000 Currency.KHR
        "https://example.com/return" ⟨"20251011120000", 1759999880⟩ =
      jsTake (merchantAuthJson "ec461403" "Test Payment" 1000 Currency.KHR
        (some 1760000000) "https://example.com/return") 117 ∧
    jsTake (merchantAuthJson "ec461403" "Test Payment" 1000 Currency.KHR
        (some 1760000000) "https://example.com/return") 117 ≠
      merchantAuthJson "ec461403" "Test Payment" 1000 Currency.KHR
        (some 1760000000) "https://example.com/return" := by
  refine ⟨by decide, by decide, by decide⟩

set_option maxRecDepth 10000 in
/-- C3 counterexample: at a concrete oversized input, the plaintext that
`createPaymentLink` of `index.ts` passes to RSA encryption differs from the
envelope JSON, so "that JSON is RSA-encrypted" fails as stated. -/
theorem paymentLink_plaintext_not_full_json :
    paymentLinkIndexPlaintext "ec461403" "Test Payment" 1000 Currency.KHR
        "https://example.com/return" ⟨"20251011120000", 1759999880⟩ ≠
      merchantAuthJson "ec461403" "Test Payment" 1000 Currency.KHR
        (some 1760000000) "https://example.com/return" := by
  decide

/-- C3 (amended): the envelope JSON has fixed key order `mc_id`, `title`,
`amount`, `currency`, `expired_date` (= now + 120 UNIX seconds; the `part_000`
legacy variant sends `null`), `return_url`; `index.ts` RSA-encrypts the JSON
truncated to its first 117 characters and Base64-encodes the ciphertext into
`merchant_auth`, while the `part_002` variant encrypts the untruncated JSON;
and the outer signature is the Mode A HMAC over (request timestamp, merchant
id, `merchant_auth`) in that order. -/
theorem paymentLink_envelope_structure :
    ∀ (rsaEnc : String → List Nat → List Nat) (mid apiKey key title : String)
      (amount : Int) (currency : Currency) (returnUrl : String) (clock : Clock)
      (cfg : ABAPayWayConfig) (k : String),
      merchantAuthJson mid title amount currency (some (clock.epochSeconds + 120)) returnUrl =
        modeBCanonicalJson mid title amount currency (some (clock.epochSeconds + 120)) returnUrl ∧
      legacyMerchantAuthJson mid title amount currency returnUrl =
        modeBCanonicalJson mid title amount currency none returnUrl ∧
      createPaymentLinkIndex rsaEnc mid apiKey key title amount currency returnUrl clock =
        (let ma := base64Encode (rsaEnc key (utf8 (jsTake (merchantAuthJson mid title amount
          currency (some (clock.epochSeconds + 120)) returnUrl) 117)))
         (⟨clock.requestTime, mid, ma⟩,
          create_hash apiKey [clock.requestTime, mid, ma])) ∧
      (cfg.rsaPublicKey = some k → k ≠ "" →
        createPaymentLinkV2 rsaEnc cfg title amount currency returnUrl clock =
          (let ma := base64Encode (rsaEnc k (utf8 (merchantAuthJson cfg.merchantId title amount
            currency (some (clock.epochSeconds + 120)) returnUrl)))
           .ok (⟨clock.requestTime, cfg.merchantId, ma⟩,
            create_hash cfg.apiKey [clock.requestTime, cfg.merchantId, ma]))) := by
  intro rsaEnc mid apiKey key title amount currency returnUrl clock cfg k
  refine ⟨?_, ?_, rfl, fun h1 h2 => ?_⟩
  · simp only [merchantAuthJson, modeBCanonicalJson, jsonObject, jsonFieldsTail, jsonOptInt,
      String.append_assoc, String.empty_append, String.append_empty,
      strMerge3 "\x7b" (jsonQuote "mc_id") ":" "\x7b\"mc_id\":" (by decide),
      strMerge3 "," (jsonQuote "title") ":" ",\"title\":" (by decide),
      strMerge3 "," (jsonQuote "amount") ":" ",\"amount\":" (by decide),
      strMerge3 "," (jsonQuote "currency") ":" ",\"currency\":" (by decide),
      strMerge3 "," (jsonQuote "expired_date") ":" ",\"expired_date\":" (by decide),
      strMerge3 "," (jsonQuote "return_url") ":" ",\"return_url\":" (by decide)]
  · simp only [legacyMerchantAuthJson, modeBCanonicalJson, jsonObject, jsonFieldsTail, jsonOptInt,
      String.append_assoc, String.empty_append, String.append_empty,
      strMerge3 "\x7b" (jsonQuote "mc_id") ":" "\x7b\"mc_id\":" (by decide),
      strMerge3 "," (jsonQuote "title") ":" ",\"title\":" (by decide),
      strMerge3 "," (jsonQuote "amount") ":" ",\"amount\":" (by decide),
      strMerge3 "," (jsonQuote "currency") ":" ",\"currency\":" (by decide),
      strMerge3 "," (jsonQuote "expired_date") ":" ",\"expired_date\":" (by decide),
      strMerge3 "," (jsonQuote "return_url") ":" ",\"return_url\":" (by decide),
      strMerge3 ",\"expired_date\":" "null" ",\"return_url\":"
        ",\"expired_date\":null,\"return_url\":" (by decide)]
  · simp [createPaymentLinkV2, h1, jsTruthyOpt, h2]

/-- C3 witness: the amended envelope statement instantiated at a concrete
configured key, with both hypotheses discharged. -/
theorem paymentLink_envelope_structure_witness :
    (⟨"https://x", "m", "a", some "KEY", none⟩ : ABAPayWayConfig).rsaPublicKey = some "KEY" ∧
    createPaymentLinkV2 rsaStub ⟨"https://x", "m", "a", some "KEY", none⟩
        "Test" 5 Currency.USD "u" ⟨"t0", 100⟩ =
      (let ma := base64Encode (rsaStub "KEY" (utf8 (merchantAuthJson "m" "Test" 5
        Currency.USD (some (100 + 120)) "u")))
       .ok (⟨"t0", "m", ma⟩, create_hash "a" ["t0", "m", ma])) :=
  ⟨rfl,
   (paymentLink_envelope_structure rsaStub "m" "a" "KEY" "Test" 5 Currency.USD "u"
     ⟨"t0", 100⟩ ⟨"https://x", "m", "a", some "KEY", none⟩ "KEY").2.2.2
     rfl (by decide)⟩

/-- C4 counterexample: with no environment overrides and base URL
`https://example.com` (scheme present, API path segment absent), the code
appends the standard path, while the claim's four-rule chain — whose rules
1-3 all fail to match — falls through to the hardcoded sandbox default. -/
theorem resolveCheckoutUrl_claim_chain_fails :
    getCheckoutApiUrl ⟨"", ""⟩ "https://example.com" true ≠
      resolveClaimChain ⟨"", ""⟩ "https://example.com" true := by
  decide

/-- C4 (amended): the resolver follows the first-match-wins chain
(1) per-environment override; (2) a base URL with an `http://`/`https://`
scheme already containing the API path segment, used verbatim after
trailing-slash stripping; (2') such a base URL without the segment, with the
standard path appended; (3) a non-empty base URL not starting with `http`,
prefixed with `https://` after trailing-slash stripping, with the standard
path appended unless the segment is already present; (4) hardcoded defaults
keyed by the sandbox flag — in particular, with no overrides, sandbox=true
resolves to the sandbox default and sandbox=false to the production default. -/
theorem resolveCheckoutUrl_matches_amended_chain :
    (∀ (env : EnvVars) (baseUrl : String) (useSandbox : Bool),
      getCheckoutApiUrl env baseUrl useSandbox = resolveAmendedChain env baseUrl useSandbox) ∧
    getCheckoutApiUrl ⟨"", ""⟩ "" true = sandboxCheckoutUrl ∧
    getCheckoutApiUrl ⟨"", ""⟩ "" false = productionCheckoutUrl := by
  refine ⟨fun env baseUrl useSandbox => ?_, by decide, by decide⟩
  simp only [getCheckoutApiUrl, resolveAmendedChain]
  split_ifs <;> first | rfl | tauto

/-- C5: with no RSA public key configured, the payment-link (Mode B) call of
`part_002` fails with the `ConfigurationError` and RSA encryption is never
attempted: the result is that error and is independent of the encryption
function supplied. -/
theorem paymentLink_missing_rsa_key_config_error :
    ∀ (rsaEnc rsaEnc' : String → List Nat → List Nat) (cfg : ABAPayWayConfig)
      (title : String) (amount : Int) (currency : Currency) (returnUrl : String)
      (clock : Clock),
      cfg.rsaPublicKey = none →
      createPaymentLinkV2 rsaEnc cfg title amount currency returnUrl clock =
        .error (.configurationError "RSA public key is required for payment creation") ∧
      createPaymentLinkV2 rsaEnc cfg title amount currency returnUrl clock =
        createPaymentLinkV2 rsaEnc' cfg title amount currency returnUrl clock := by
  intro rsaEnc rsaEnc' cfg title amount currency returnUrl clock h
  constructor <;> simp [createPaymentLinkV2, h, jsTruthyOpt]

/-- C5 witness: the missing-key failure at a concrete configuration. -/
theorem paymentLink_missing_rsa_key_config_error_witness :
    (⟨"https://x", "m", "a", none, none⟩ : ABAPayWayConfig).rsaPublicKey = none ∧
    createPaymentLinkV2 rsaStub ⟨"https://x", "m", "a", none, none⟩ "T" 5 Currency.USD "u"
        ⟨"t0", 100⟩ =
      .error (.configurationError "RSA public key is required for payment creation") :=
  ⟨rfl,
   (paymentLink_missing_rsa_key_config_error rsaStub rsaStub
     ⟨"https://x", "m", "a", none, none⟩ "T" 5 Currency.USD "u" ⟨"t0", 100⟩ rfl).1⟩

/-- C6 counterexample: with every other field valid, the amounts `"0.00"` and
`"-5"` pass validation — the checkout succeeds — contradicting the claim that
they fail. -/
theorem amount_zero_passes_validation :
    (createABACheckout ⟨"", ""⟩
      ⟨"https://checkout-sandbox.payway.com.kh", "ec461403", "key7561", none, some true⟩
      ⟨"tran1234", "0.00", some Currency.USD, ⟨"John", "Doe", "x@y.com", "0123456789"⟩,
        none, none⟩
      "20250101010101").success = true ∧
    (createABACheckout ⟨"", ""⟩
      ⟨"https://checkout-sandbox.payway.com.kh", "ec461403", "key7561", none, some true⟩
      ⟨"tran1234", "-5", some Currency.USD, ⟨"John", "Doe", "x@y.com", "0123456789"⟩,
        none, none⟩
      "20250101010101").success = true :=
  ⟨rfl, rfl⟩

/-- C6 (amended): validation requires of the amount only that it be a
non-empty string — no positivity or decimal parsing: with valid configuration
and customer fields, the checkout succeeds exactly when the amount is
non-empty, so `"0.00"`, `"-5"` and `"10.50"` all pass. -/
theorem amount_validation_is_truthiness :
    ∀ (env : EnvVars) (cfg : ABAPayWayConfig) (req : PaymentRequest) (now : String),
      cfg.baseUrl ≠ "" → cfg.merchantId ≠ "" → cfg.apiKey ≠ "" →
      req.transactionId ≠ "" →
      req.customer.firstName ≠ "" → req.customer.lastName ≠ "" →
      req.customer.email ≠ "" → req.customer.phone ≠ "" →
      ((createABACheckout env cfg req now).success = true ↔ req.amount ≠ "") := by
  intro env cfg req now h1 h2 h3 h4 h5 h6 h7 h8
  by_cases ha : req.amount = ""
  · simp [createABACheckout, h1, h2, h3, h4, ha, failedResponse]
  · simp [createABACheckout, h1, h2, h3, h4, h5, h6, h7, h8, ha]

/-- C6 witness: the amended statement instantiated at amount `"10.50"` with
all hypotheses discharged. -/
theorem amount_validation_is_truthiness_witness :
    (createABACheckout ⟨"", ""⟩
      ⟨"https://checkout-sandbox.payway.com.kh", "ec461403", "key7561", none, some true⟩
      ⟨"TXN_001", "10.50", none, ⟨"John", "Doe", "john@example.com", "+855123456789"⟩,
        none, some "order_id=123"⟩
      "20250101010101").success = true := by
  exact (amount_validation_is_truthiness ⟨"", ""⟩
    ⟨"https://checkout-sandbox.payway.com.kh", "ec461403", "key7561", none, some true⟩
    ⟨"TXN_001", "10.50", none, ⟨"John", "Doe", "john@example.com", "+855123456789"⟩,
      none, some "order_id=123"⟩
    "20250101010101" (by decide) (by decide) (by decide) (by decide) (by decide)
    (by decide) (by decide) (by decide)).mpr (by decide)

/-- C7 counterexample: the delimiter-free concatenation cannot distinguish
field boundaries or empty-vs-absent fields: with key `"key"`, the sequences
`["ab","c"]` and `["a","bc"]` produce the same signature, as do `["a",""]`
and `["a"]`, where the claim requires them to differ. -/
theorem signature_boundary_collision :
    create_hash "key" ["ab", "c"] = create_hash "key" ["a", "bc"] ∧
    create_hash "key" ["a", ""] = create_hash "key" ["a"] := by
  refine ⟨?_, ?_⟩
  · simp only [create_hash]
    rw [show joinAll ["ab", "c"] = joinAll ["a", "bc"] from by decide]
  · simp only [create_hash]
    rw [show joinAll ["a", ""] = joinAll ["a"] from by decide]

/-- C7 (amended): the signature depends on the ordered values only through
their delimiter-free concatenation: any two value sequences with equal
concatenation (boundary shifts, or an empty-string field added) sign
identically, under both hash implementations. -/
theorem signature_depends_only_on_concatenation :
    ∀ (key : String) (vs1 vs2 : List String),
      joinAll vs1 = joinAll vs2 →
      create_hash key vs1 = create_hash key vs2 ∧
      createCheckoutHash key vs1 = createCheckoutHash key vs2 := by
  intro key vs1 vs2 h
  constructor
  · simp only [create_hash, h]
  · simp only [createCheckoutHash, h]

/-- C7 witness: the amended statement instantiated at the boundary-shift pair,
with the concatenation hypothesis discharged. -/
theorem signature_depends_only_on_concatenation_witness :
    joinAll ["ab", "c"] = joinAll ["a", "bc"] ∧
    createCheckoutHash "key" ["ab", "c"] = createCheckoutHash "key" ["a", "bc"] :=
  ⟨by decide,
   (signature_depends_only_on_concatenation "key" ["ab", "c"] ["a", "bc"] (by decide)).2⟩

/-- C8: evaluation of the code at failing inputs.  Validation failures
collapse to one fixed message per whole field group rather than a structured
list naming each offending field: a configuration missing only the API key
yields the very same single message as one missing all three fields, and a
request with all four customer fields empty yields one fixed catch-all
message for the group. -/
theorem validation_single_opaque_message :
    (createABACheckout ⟨"", ""⟩
      ⟨"https://checkout-sandbox.payway.com.kh", "ec461403", "", none, none⟩
      ⟨"tran1234", "20", none, ⟨"John", "Doe", "x@y.com", "0123456789"⟩, none, none⟩
      "20250101010101").error = some msgMissingConfig ∧
    (createABACheckout ⟨"", ""⟩ ⟨"", "", "", none, none⟩
      ⟨"tran1234", "20", none, ⟨"John", "Doe", "x@y.com", "0123456789"⟩, none, none⟩
      "20250101010101").error = some msgMissingConfig ∧
    (createABACheckout ⟨"", ""⟩
      ⟨"https://checkout-sandbox.payway.com.kh", "ec461403", "k", none, none⟩
      ⟨"tran1234", "20", none, ⟨"", "", "", ""⟩, none, none⟩
      "20250101010101").error = some msgMissingCustomer :=
  ⟨rfl, rfl, rfl⟩

/-- C9: `createABACheckout` is total at the public interface with the claimed
response shape: for every configuration and request it returns a
`PaymentResponse` whose `transactionId` equals the request's, and whenever
`success` is false the response carries an empty `htmlForm`, an empty
`checkoutUrl` and a non-empty error message. -/
theorem createABACheckout_total_response_shape :
    ∀ (env : EnvVars) (cfg : ABAPayWayConfig) (req : PaymentRequest) (now : String),
      (createABACheckout env cfg req now).transactionId = req.transactionId ∧
      ((createABACheckout env cfg req now).success = false →
        (createABACheckout env cfg req now).htmlForm = "" ∧
        (createABACheckout env cfg req now).checkoutUrl = "" ∧
        (createABACheckout env cfg req now).error.getD "" ≠ "") := by
  intro env cfg req now
  refine ⟨?_, ?_⟩
  · unfold createABACheckout
    split_ifs <;> rfl
  · intro hs
    unfold createABACheckout at hs ⊢
    split_ifs at hs ⊢
    · exact ⟨rfl, rfl, by show msgMissingConfig ≠ ""; decide⟩
    · exact ⟨rfl, rfl, by show msgMissingPayment ≠ ""; decide⟩
    · exact ⟨rfl, rfl, by show msgMissingCustomer ≠ ""; decide⟩

/-- C9 witness: the failure-shape conjunct applied at a concrete failing
configuration, with the `success = false` hypothesis discharged. -/
theorem createABACheckout_total_response_shape_witness :
    (createABACheckout ⟨"", ""⟩ ⟨"", "", "", none, none⟩
      ⟨"tran1234", "20", none, ⟨"J", "D", "e", "p"⟩, none, none⟩ "t").transactionId =
        "tran1234" ∧
    (createABACheckout ⟨"", ""⟩ ⟨"", "", "", none, none⟩
      ⟨"tran1234", "20", none, ⟨"J", "D", "e", "p"⟩, none, none⟩ "t").htmlForm = "" ∧
    (createABACheckout ⟨"", ""⟩ ⟨"", "", "", none, none⟩
      ⟨"tran1234", "20", none, ⟨"J", "D", "e", "p"⟩, none, none⟩ "t").checkoutUrl = "" ∧
    (createABACheckout ⟨"", ""⟩ ⟨"", "", "", none, none⟩
      ⟨"tran1234", "20", none, ⟨"J", "D", "e", "p"⟩, none, none⟩ "t").error.getD "" ≠ "" := by
  have h := createABACheckout_total_response_shape ⟨"", ""⟩ ⟨"", "", "", none, none⟩
    ⟨"tran1234", "20", none, ⟨"J", "D", "e", "p"⟩, none, none⟩ "t"
  have h2 := h.2 rfl
  exact ⟨h.1, h2.1, h2.2.1, h2.2.2⟩

/-- C10: the two coexisting HMAC implementations agree: for every API key and
every list of string values, `create_hash` (digest directly to Base64) equals
`createCheckoutHash` (raw digest, then `Buffer.from(...).toString('base64')`),
because the digest consists of octets and `Buffer.from` is the identity on
octets. -/
theorem create_hash_eq_createCheckoutHash :
    ∀ (apiKey : String) (values : List String),
      create_hash apiKey values = createCheckoutHash apiKey values := by
  intro apiKey values
  unfold create_hash createCheckoutHash
  rw [bufferFrom_eq_self _ (mem_hmacSha512_lt _ _)]
